import Mathlib

/-!
Shallow embedding of the bank-account model in `bank/bank.py`.

Python numerics (ints and the float interest rates used by the tests) are
embedded as exact rationals `ℚ`.  The `Account`/`StudentAccount` class
hierarchy with its polymorphic `step` is embedded as a single `Account`
record carrying an `AccountKind` tag on which `Account.step` dispatches.
The back-reference `Account.bank` is used in the source only to read the
owning bank's `interest_rate` inside `step`; the embedding therefore passes
the rate to `step` explicitly instead of storing a cyclic reference.
Operations that can raise `AccountException` return the post-call account
state paired with an optional exception: on failure the returned state is
the unchanged pre-call state, exactly as in Python where the exception is
raised before any mutation.
-/

/-- Tag distinguishing the base `Account` class from `StudentAccount`
(which overrides only `step`). -/
inductive AccountKind where
  | base
  | student
  deriving DecidableEq

/-- Embeds `class AccountException(Exception)`: carries the message string. -/
structure AccountException where
  message : String
  deriving DecidableEq

/-- The message built by the balance setter:
`f"Negative balance {balance} is not allowed"`. -/
def exc_message (b : ℚ) : String :=
  "Negative balance " ++ toString b ++ " is not allowed"

/-- Embeds the state of `Account` (`bank/bank.py` lines 5-14):
`name`, `_balance`, `overdraft_limit`, plus the dispatch tag for the
`StudentAccount` subclass.  `__init__` sets `_balance = 0` and
`overdraft_limit = 0`. -/
structure Account where
  name : String
  _balance : ℚ
  overdraft_limit : ℚ
  kind : AccountKind
  deriving DecidableEq

/-- The `balance` property getter: returns `self._balance`. -/
def Account.balance (a : Account) : ℚ :=
  a._balance

/-- The `balance` property setter (`bank/bank.py` lines 22-29): raises
`AccountException` when the new value is below `-overdraft_limit`, leaving
the state unchanged; otherwise overwrites `_balance` with the new value. -/
def Account.set_balance (a : Account) (b : ℚ) : Account × Option AccountException :=
  if b < -a.overdraft_limit then
    (a, some ⟨exc_message b⟩)
  else
    ({ a with _balance := b }, none)

/-- `available_funds` property: `overdraft_limit + balance`. -/
def Account.available_funds (a : Account) : ℚ :=
  a.overdraft_limit + a.balance

/-- `make_deposit`: `self._balance += amount`, unvalidated. -/
def Account.make_deposit (a : Account) (amount : ℚ) : Account :=
  { a with _balance := a._balance + amount }

/-- `make_withdrawal`: `self.balance -= amount`, i.e. the validated
setter applied to `balance - amount`. -/
def Account.make_withdrawal (a : Account) (amount : ℚ) : Account × Option AccountException :=
  a.set_balance (a.balance - amount)

/-- Plain assignment to the public field `overdraft_limit` (no setter,
no validation). -/
def Account.set_overdraft_limit (a : Account) (l : ℚ) : Account :=
  { a with overdraft_limit := l }

/-- `Account.step` body: `self._balance *= (1 + self.bank.interest_rate)`,
written to `_balance` directly, bypassing the validated setter. -/
def Account.base_step (rate : ℚ) (a : Account) : Account :=
  { a with _balance := a._balance * (1 + rate) }

/-- Polymorphic `step`: the base class multiplies unconditionally;
`StudentAccount.step` calls `super().step()` only when `balance > 0`. -/
def Account.step (rate : ℚ) (a : Account) : Account :=
  match a.kind with
  | .base => a.base_step rate
  | .student => if a.balance > 0 then a.base_step rate else a

/-- Embeds the state of `Bank` (`bank/bank.py` lines 47-54):
`interest_rate` and the ordered list of owned accounts. -/
structure Bank where
  interest_rate : ℚ
  accounts : List Account
  deriving DecidableEq

/-- `Bank.__init__` default for `interest_rate`: the literal `0.1`. -/
def Bank.default_interest : ℚ :=
  1 / 10

/-- `Bank(interest_rate=r)`: stores the rate and an empty account list. -/
def Bank.make (rate : ℚ) : Bank :=
  ⟨rate, []⟩

/-- `Bank()` with no argument: uses the default `interest_rate=0.1`. -/
def Bank.new : Bank :=
  Bank.make Bank.default_interest

/-- `open_account(name)`: constructs a fresh base `Account` with that name
(balance 0, overdraft limit 0, owned by this bank), appends it to
`accounts`, and returns it. -/
def Bank.open_account (bk : Bank) (name : String) : Bank × Account :=
  let account : Account := ⟨name, 0, 0, .base⟩
  (⟨bk.interest_rate, bk.accounts ++ [account]⟩, account)

/-- `Bank.step`: `for account in self.accounts: account.step()` — applies
each owned account's own polymorphic `step` once, in insertion order. -/
def Bank.step (bk : Bank) : Bank :=
  ⟨bk.interest_rate, bk.accounts.map (Account.step bk.interest_rate)⟩

/-- Sample concrete account used by the witnesses below. -/
def acc_ex : Account :=
  ⟨"Richard", 100, 0, .base⟩

/-- Claim C1: `make_withdrawal(a)` raises `AccountException` iff
`B - a < -L`; on success the new balance is `B - a` (name, overdraft limit
and kind untouched), and on failure the state is unchanged, so the balance
still equals `B`. -/
theorem make_withdrawal_spec (a : Account) (amt : ℚ) :
    ((a.make_withdrawal amt).2 ≠ none ↔ a.balance - amt < -a.overdraft_limit) ∧
    ((a.make_withdrawal amt).2 = none →
      (a.make_withdrawal amt).1 = { a with _balance := a.balance - amt }) ∧
    ((a.make_withdrawal amt).2 ≠ none → (a.make_withdrawal amt).1 = a) := by
  unfold Account.make_withdrawal Account.set_balance
  by_cases h : a.balance - amt < -a.overdraft_limit
  · simp [h]
  · simp [h]

/-- Witness for C1: a withdrawal of 20 from balance 100 with overdraft
limit 0 succeeds and leaves balance 80; a withdrawal of 200 raises and
leaves the account unchanged. -/
theorem make_withdrawal_spec_witness :
    (acc_ex.make_withdrawal 20).1 = { acc_ex with _balance := 80 } ∧
    (acc_ex.make_withdrawal 200).1 = acc_ex := by
  constructor
  · have h := (make_withdrawal_spec acc_ex 20).2.1
      (by norm_num [Account.make_withdrawal, Account.set_balance, acc_ex, Account.balance])
    rw [h]
    norm_num [acc_ex, Account.balance]
  · refine (make_withdrawal_spec acc_ex 200).2.2 ?_
    norm_num [Account.make_withdrawal, Account.set_balance, acc_ex, Account.balance]
    simp

/-- Claim C2: direct balance assignment of `b` succeeds iff `b >= -L`,
fully replacing the stored balance with `b`; when `b < -L` it raises
`AccountException` whose message contains the rejected value `b`, and the
state (in particular the stored balance) is unchanged. -/
theorem set_balance_spec (a : Account) (b : ℚ) :
    (-a.overdraft_limit ≤ b →
      (a.set_balance b).2 = none ∧ (a.set_balance b).1 = { a with _balance := b }) ∧
    (b < -a.overdraft_limit →
      (a.set_balance b).2 = some ⟨exc_message b⟩ ∧ (a.set_balance b).1 = a ∧
      ∃ s t, exc_message b = s ++ toString b ++ t) := by
  unfold Account.set_balance
  by_cases h : b < -a.overdraft_limit
  · refine ⟨fun hle => absurd h (not_lt.mpr hle), fun _ => ?_⟩
    refine ⟨by simp [h], by simp [h], "Negative balance ", " is not allowed", rfl⟩
  · refine ⟨fun _ => ⟨by simp [h], by simp [h]⟩, fun hlt => absurd hlt h⟩

/-- Witness for C2: assigning 5 to the sample account succeeds and stores
exactly 5; assigning -7 fails with the message naming -7 and leaves the
account unchanged. -/
theorem set_balance_spec_witness :
    ((acc_ex.set_balance 5).2 = none ∧ (acc_ex.set_balance 5).1 = { acc_ex with _balance := 5 }) ∧
    ((acc_ex.set_balance (-7)).2 = some ⟨exc_message (-7)⟩ ∧ (acc_ex.set_balance (-7)).1 = acc_ex ∧
      ∃ s t, exc_message (-7) = s ++ toString (-7 : ℚ) ++ t) := by
  constructor
  · exact (set_balance_spec acc_ex 5).1 (by norm_num [acc_ex])
  · exact (set_balance_spec acc_ex (-7)).2 (by norm_num [acc_ex])

/-- Claim C3: the base `Account.step` multiplies the balance by
`(1 + r)` unconditionally and never raises, for every balance (any sign)
and every overdraft limit — the validated setter, and with it the
overdraft check, is bypassed. -/
theorem base_step_spec (name : String) (b l rate : ℚ) :
    Account.step rate ⟨name, b, l, .base⟩ = ⟨name, b * (1 + rate), l, .base⟩ := by
  simp [Account.step, Account.base_step]

/-- Claim C4: `StudentAccount.step` multiplies the balance by `(1 + r)`
when it is strictly positive and leaves the account exactly unchanged
when the balance is `<= 0`. -/
theorem student_step_spec (name : String) (b l rate : ℚ) :
    (0 < b → Account.step rate ⟨name, b, l, .student⟩ = ⟨name, b * (1 + rate), l, .student⟩) ∧
    (b ≤ 0 → Account.step rate ⟨name, b, l, .student⟩ = ⟨name, b, l, .student⟩) := by
  constructor
  · intro h
    simp [Account.step, Account.base_step, Account.balance, h]
  · intro h
    simp [Account.step, Account.balance, not_lt.mpr h]

/-- Witness for C4: with rate 0.1, a student balance of 10 becomes 11 and
a student balance of -10 stays -10, matching the tests. -/
theorem student_step_spec_witness :
    Account.step (1 / 10) ⟨"Guy Young", 10, 0, .student⟩ = ⟨"Guy Young", 11, 0, .student⟩ ∧
    Account.step (1 / 10) ⟨"Guy Young", -10, 0, .student⟩ = ⟨"Guy Young", -10, 0, .student⟩ := by
  constructor
  · have h := (student_step_spec "Guy Young" 10 0 (1 / 10)).1 (by norm_num)
    rw [h]
    norm_num
  · exact (student_step_spec "Guy Young" (-10) 0 (1 / 10)).2 (by norm_num)

/-- A state reached from `Bank()` by public operations only: open an
account, set `overdraft_limit = 10`, assign `balance = -10` (accepted,
since -10 >= -10), then apply one interest step at the default rate. -/
def stepped_account : Account :=
  Account.step Bank.new.interest_rate
    (((Bank.new.open_account "Richard").2.set_overdraft_limit 10).set_balance (-10)).1

/-- Counterexample to claim C5: starting from `Bank()` and using only
public operations, the balance assignment of -10 succeeds, and the
subsequent successful `step()` leaves the balance at -11, strictly below
`-overdraft_limit = -10`, so the invariant does not hold after every
successful mutation. -/
theorem invariant_spec_counterexample :
    ((((Bank.new.open_account "Richard").2.set_overdraft_limit 10).set_balance (-10)).2
      = none) ∧
    stepped_account.balance < -stepped_account.overdraft_limit := by
  constructor
  · norm_num [Bank.new, Bank.make, Bank.default_interest, Bank.open_account,
      Account.set_overdraft_limit, Account.set_balance]
  · norm_num [stepped_account, Bank.new, Bank.make, Bank.default_interest, Bank.open_account,
      Account.set_overdraft_limit, Account.set_balance, Account.step, Account.base_step,
      Account.balance]

/-- Claim C5 as amended: the invariant `balance >= -overdraft_limit` holds
after every successful balance assignment and every successful
`make_withdrawal`, and on failure these two operations leave the account
unchanged; the unvalidated mutations (`make_deposit`, `step`,
`overdraft_limit` assignment) do not enforce it. -/
theorem validated_mutations_invariant (a : Account) (x : ℚ) :
    ((a.set_balance x).2 = none →
      -(a.set_balance x).1.overdraft_limit ≤ (a.set_balance x).1.balance) ∧
    ((a.set_balance x).2 ≠ none → (a.set_balance x).1 = a) ∧
    ((a.make_withdrawal x).2 = none →
      -(a.make_withdrawal x).1.overdraft_limit ≤ (a.make_withdrawal x).1.balance) ∧
    ((a.make_withdrawal x).2 ≠ none → (a.make_withdrawal x).1 = a) := by
  unfold Account.make_withdrawal Account.set_balance
  constructor
  · by_cases h : x < -a.overdraft_limit
    · simp [h]
    · simp [h, Account.balance, not_lt.mp h]
  constructor
  · by_cases h : x < -a.overdraft_limit
    · simp [h]
    · simp [h]
  constructor
  · by_cases h : a._balance - x < -a.overdraft_limit
    · simp [Account.balance, h]
    · simp [Account.balance, h, not_lt.mp h]
  · by_cases h : a._balance - x < -a.overdraft_limit
    · simp [Account.balance, h]
    · simp [Account.balance, h]

/-- Witness for the amended C5: assigning 5 to the sample account succeeds
and the invariant holds in the resulting state. -/
theorem validated_mutations_invariant_witness :
    -(acc_ex.set_balance 5).1.overdraft_limit ≤ (acc_ex.set_balance 5).1.balance :=
  (validated_mutations_invariant acc_ex 5).1
    (by norm_num [Account.set_balance, acc_ex])

/-- Claim C6: `make_deposit(a)` succeeds unconditionally for every amount
(positive, zero or negative) and every prior balance, and afterwards the
balance equals `old_balance + a`, with the other fields untouched — no
validation is applied, even when the result is below `-overdraft_limit`. -/
theorem make_deposit_spec (a : Account) (x : ℚ) :
    (a.make_deposit x).balance = a.balance + x ∧
    a.make_deposit x = { a with _balance := a.balance + x } := by
  exact ⟨rfl, rfl⟩

/-- Claim C7: `Bank.step()` applies each owned account's own polymorphic
`step` exactly once, in insertion order (it maps `step` over the account
list, leaving the rate unchanged); concretely, two base accounts with
balances 10 and 20 under rate 0.1 end with balances 11 and 22. -/
theorem bank_step_spec :
    (∀ bk : Bank,
      (Bank.step bk).accounts = bk.accounts.map (Account.step bk.interest_rate) ∧
      (Bank.step bk).interest_rate = bk.interest_rate) ∧
    (Bank.step ⟨1 / 10, [⟨"Richard", 10, 0, .base⟩, ⟨"Second", 20, 0, .base⟩]⟩).accounts
      = [⟨"Richard", 11, 0, .base⟩, ⟨"Second", 22, 0, .base⟩] := by
  refine ⟨fun bk => ⟨rfl, rfl⟩, ?_⟩
  norm_num [Bank.step, Account.step, Account.base_step]

/-- Claim C8: `available_funds` always reads exactly
`overdraft_limit + balance` — in every state, and in particular in the
state produced by each public mutation (deposit, balance assignment,
withdrawal, overdraft-limit assignment, interest step). -/
theorem available_funds_spec (a : Account) (x rate : ℚ) :
    a.available_funds = a.overdraft_limit + a.balance ∧
    (a.make_deposit x).available_funds
      = (a.make_deposit x).overdraft_limit + (a.make_deposit x).balance ∧
    (a.set_balance x).1.available_funds
      = (a.set_balance x).1.overdraft_limit + (a.set_balance x).1.balance ∧
    (a.make_withdrawal x).1.available_funds
      = (a.make_withdrawal x).1.overdraft_limit + (a.make_withdrawal x).1.balance ∧
    (a.set_overdraft_limit x).available_funds
      = (a.set_overdraft_limit x).overdraft_limit + (a.set_overdraft_limit x).balance ∧
    (Account.step rate a).available_funds
      = (Account.step rate a).overdraft_limit + (Account.step rate a).balance := by
  refine ⟨rfl, rfl, rfl, rfl, rfl, rfl⟩

/-- Claim C9: `open_account(name)` returns a fresh account with the given
name, balance 0 and overdraft limit 0 (a base account stepping at its
bank's rate), appends it as the last element of the bank's account list
(whose length grows by exactly one, the rate being untouched), and a
second call with the same name also succeeds, registering a second
account. -/
theorem open_account_spec (bk : Bank) (nm : String) :
    (bk.open_account nm).2.name = nm ∧
    (bk.open_account nm).2.balance = 0 ∧
    (bk.open_account nm).2.overdraft_limit = 0 ∧
    (bk.open_account nm).2.kind = .base ∧
    (bk.open_account nm).1.accounts = bk.accounts ++ [(bk.open_account nm).2] ∧
    (bk.open_account nm).1.accounts.length = bk.accounts.length + 1 ∧
    (bk.open_account nm).1.interest_rate = bk.interest_rate ∧
    ((bk.open_account nm).1.open_account nm).1.accounts.length = bk.accounts.length + 2 := by
  refine ⟨rfl, rfl, rfl, rfl, rfl, by simp [Bank.open_account], rfl, by simp [Bank.open_account]⟩

/-- Claim C10: `Bank()` built with no `interest_rate` argument has rate
0.1 (not 0), so one `step()` of a base account holding balance `B` under
such a bank leaves balance `B * 1.1`. -/
theorem default_rate_spec (name : String) (b l : ℚ) :
    Bank.new.interest_rate = 1 / 10 ∧
    Bank.new.interest_rate ≠ 0 ∧
    (Account.step Bank.new.interest_rate ⟨name, b, l, .base⟩).balance = b * (11 / 10) := by
  refine ⟨rfl, by norm_num [Bank.new, Bank.make, Bank.default_interest], ?_⟩
  show b * (1 + 1 / 10) = b * (11 / 10)
  norm_num
